import Mathlib

/-!
Shallow embedding of the GamePad Tester core (src/script.js): the sampling,
metrics and signal-visualization pipeline.  JavaScript numbers are modelled
as exact rationals; the one place where IEEE infinity can arise in this
pipeline (the polling-rate division `1000 / avgFrameDelta`) is modelled by
the extended type `JSNum`.  `Math.sqrt` is modelled by `Rat.sqrt`, which
agrees with it on perfect rational squares.  Out-of-bounds JavaScript array
reads (`undefined`) are modelled by `Option`.
-/

/-- A JavaScript number restricted to the values reachable in this pipeline:
a finite value (rational) or positive infinity.  NaN is unreachable here:
the only division is `1000 / avgFrameDelta` with a positive numerator. -/
inductive JSNum where
  | fin : ℚ → JSNum
  | inf : JSNum
deriving DecidableEq, Repr

/-- JavaScript addition on `JSNum`: anything plus infinity is infinity. -/
def jsAdd : JSNum → JSNum → JSNum
  | JSNum.fin a, JSNum.fin b => JSNum.fin (a + b)
  | _, _ => JSNum.inf

/-- Sum of a list of JS numbers, as `Array.prototype.reduce((a,b) => a+b, 0)`. -/
def jsSum (l : List JSNum) : JSNum :=
  l.foldl jsAdd (JSNum.fin 0)

/-- JavaScript division `a / b` for a finite positive numerator `a` and a
finite denominator `b ≥ 0` (the only shape occurring in the source):
division by (positive) zero yields positive infinity. -/
def jsDiv (a b : ℚ) : JSNum :=
  if b = 0 then JSNum.inf else JSNum.fin (a / b)

/-- Division of a JS number by a (positive) natural list length. -/
def jsDivNat : JSNum → ℕ → JSNum
  | JSNum.fin a, n => JSNum.fin (a / n)
  | JSNum.inf, _ => JSNum.inf

/-- Mean of a list of JS numbers (`reduce(..)/length`), used on nonempty
lists only in the source. -/
def jsMean (l : List JSNum) : JSNum :=
  jsDivNat (jsSum l) l.length

/-- JavaScript `Math.round`: half-up rounding; `Math.round(Infinity)` is
infinity. -/
def jsRound : JSNum → JSNum
  | JSNum.fin a => JSNum.fin (round a)
  | JSNum.inf => JSNum.inf

/-- Mean of a list of rationals (`reduce((a,b) => a+b, 0) / length`). -/
def mean (l : List ℚ) : ℚ :=
  l.sum / l.length

-- ==========================================
-- PERFORMANCE METRICS (updatePerformanceMetrics, script.js lines 340-380)
-- ==========================================

/-- The `GamepadTester.performance` record: last host timestamp, the rolling
window of frame deltas and the rolling window of derived polling rates. -/
structure PerfState where
  lastTimestamp : ℚ
  frameDeltas : List ℚ
  pollingRates : List JSNum
deriving DecidableEq, Repr

/-- Initial performance state (`lastTimestamp: 0, frameDeltas: [], pollingRates: []`). -/
def initPerf : PerfState :=
  { lastTimestamp := 0, frameDeltas := [], pollingRates := [] }

/-- One call of `updatePerformanceMetrics(currentTime, _)`: when a previous
timestamp exists (`lastTime > 0`), push the frame delta (evicting beyond 60),
compute the average delta, push `1000 / avgFrameDelta` onto the rate window
(evicting beyond 60).  `lastTimestamp` is updated unconditionally. -/
def perfStep (s : PerfState) (currentTime : ℚ) : PerfState :=
  if s.lastTimestamp > 0 then
    let frameDelta := currentTime - s.lastTimestamp
    let deltas0 := s.frameDeltas ++ [frameDelta]
    let deltas := if deltas0.length > 60 then deltas0.tail else deltas0
    let avgFrameDelta := mean deltas
    let pollingRate := jsDiv 1000 avgFrameDelta
    let rates0 := s.pollingRates ++ [pollingRate]
    let rates := if rates0.length > 60 then rates0.tail else rates0
    { lastTimestamp := currentTime, frameDeltas := deltas, pollingRates := rates }
  else
    { s with lastTimestamp := currentTime }

/-- Feed a sequence of host-clock timestamps to the rate estimator. -/
def runPerf (s : PerfState) (ts : List ℚ) : PerfState :=
  ts.foldl perfStep s

/-- The polling rate written to the `polling-rate` element after a tick that
recorded a delta: `Math.round(avgPollingRate)` where `avgPollingRate` is the
mean of the rate window. -/
def displayedRate (s : PerfState) : JSNum :=
  jsRound (jsMean s.pollingRates)

-- Specification-side descriptions of the rate estimator's windows.

/-- The last `n` entries of a list (the contents of a FIFO window of
capacity `n` after pushing the whole list). -/
def lastN (n : ℕ) (xs : List α) : List α :=
  xs.drop (xs.length - n)

/-- Push onto a FIFO window of capacity `n`, evicting the oldest entry when
the capacity is exceeded. -/
def pushWin (n : ℕ) (w : List α) (v : α) : List α :=
  let w0 := w ++ [v]
  if w0.length > n then w0.tail else w0

/-- Successive differences of a timestamp chain starting from `prev`. -/
def deltaChain (prev : ℚ) : List ℚ → List ℚ
  | [] => []
  | t :: ts => (t - prev) :: deltaChain t ts

/-- The frame deltas produced by a sequence of (positive) host timestamps:
the first tick records no delta. -/
def deltasOf : List ℚ → List ℚ
  | [] => []
  | t :: ts => deltaChain t ts

/-- The polling rate pushed at each tick, as a function of the delta
sequence: the i-th rate is `1000 / mean(last 60 of the first i+1 deltas)`. -/
def ratesOf (ds : List ℚ) : List JSNum :=
  (List.range ds.length).map (fun i => jsDiv 1000 (mean (lastN 60 (ds.take (i + 1)))))

-- ==========================================
-- SNAPSHOTS AND GLOBAL TESTER STATE
-- ==========================================

/-- One entry of `gamepad.buttons`: a pressed flag and an analog value. -/
structure Button where
  pressed : Bool
  value : ℚ
deriving DecidableEq, Repr

/-- A `Gamepad` object as consumed by the core: index, axes, buttons and the
device timestamp.  JavaScript reads past the end of `axes`/`buttons` give
`undefined`, modelled by `List.get?`. -/
structure Snapshot where
  index : ℕ
  axes : List ℚ
  buttons : List Button
  timestamp : ℚ
deriving DecidableEq, Repr

/-- Which analog stick a selector names (`'left'` / `'right'`). -/
inductive Stick where
  | left
  | right
deriving DecidableEq, Repr

/-- One oscilloscope buffer (`oscilloscopeData.left` / `.right`): parallel
X and Y sample sequences.  Entries are `Option ℚ` because the source pushes
`gamepad.axes[k]` without a fallback, which is `undefined` when the
snapshot has fewer axes than the standard mapping. -/
structure ScopeData where
  x : List (Option ℚ)
  y : List (Option ℚ)
deriving DecidableEq, Repr

/-- One circularity sample `{x: .., y: ..}`; coordinates are `Option ℚ` for
the same reason as `ScopeData`. -/
structure CPoint where
  x : Option ℚ
  y : Option ℚ
deriving DecidableEq, Repr

/-- The `GamepadTester.gamepads` object: an association list from gamepad
index to stored snapshot, kept sorted by key to model the ascending
iteration order of integer-like JavaScript object keys. -/
def Store := List (ℕ × Snapshot)

instance : DecidableEq Store := by
  unfold Store
  infer_instance

/-- Insert (or replace) a gamepad at its index, keeping keys sorted. -/
def storeInsert : Store → ℕ → Snapshot → Store
  | [], i, g => [(i, g)]
  | (j, h) :: rest, i, g =>
    if i < j then (i, g) :: (j, h) :: rest
    else if i = j then (i, g) :: rest
    else (j, h) :: storeInsert rest i g

/-- Delete the entry for a gamepad index (`delete GamepadTester.gamepads[i]`). -/
def storeErase (s : Store) (i : ℕ) : Store :=
  s.filter (fun e => e.1 ≠ i)

/-- Look up a stored gamepad (`GamepadTester.gamepads[i]`). -/
def storeGet (s : Store) (i : ℕ) : Option Snapshot :=
  (s.find? (fun e => e.1 = i)).map Prod.snd

/-- The keys of the store in iteration order (`Object.keys(...)`). -/
def storeKeys (s : Store) : List ℕ :=
  s.map Prod.fst

/-- The whole `GamepadTester` session state relevant to the core pipeline. -/
structure TesterState where
  gamepads : Store
  activeGamepadIndex : Option ℕ
  perf : PerfState
  triggerLeft : Finset ℚ
  triggerRight : Finset ℚ
  scopeLeft : ScopeData
  scopeRight : ScopeData
  circLeft : List CPoint
  circRight : List CPoint
  selectedScope : Stick
  selectedCircle : Stick
  circErrorDisplay : ℚ
deriving DecidableEq

/-- The initial `GamepadTester` state from the top of the source. -/
def initState : TesterState :=
  { gamepads := []
    activeGamepadIndex := none
    perf := initPerf
    triggerLeft := ∅
    triggerRight := ∅
    scopeLeft := { x := [], y := [] }
    scopeRight := { x := [], y := [] }
    circLeft := []
    circRight := []
    selectedScope := Stick.left
    selectedCircle := Stick.left
    circErrorDisplay := 0 }

-- ==========================================
-- COMPONENT UPDATES
-- ==========================================

/-- The JavaScript comparison `Math.abs(v) > t` where `v` may be
`undefined`: `Math.abs(undefined)` is NaN, and NaN comparisons are false. -/
def jsAbsGt (v : Option ℚ) (t : ℚ) : Bool :=
  match v with
  | some q => decide (|q| > t)
  | none => false

/-- Deadzone normalization applied only to the on-screen stick indicator
(`Math.abs(axes[k]) > DEADZONE ? axes[k] : 0` with `DEADZONE = 0.05`). -/
def stickDisplay (v : Option ℚ) : ℚ :=
  if jsAbsGt v (1/20) then v.getD 0 else 0

/-- A trigger's value (`gamepad.buttons[k] ? gamepad.buttons[k].value : 0`). -/
def triggerVal (g : Snapshot) (k : ℕ) : ℚ :=
  match g.buttons.get? k with
  | some b => b.value
  | none => 0

/-- One call of `updateTriggerPressure`: insert each strictly positive
trigger value into its resolution set (a JavaScript `Set`, exact equality). -/
def updateTriggerPressure (st : TesterState) (g : Snapshot) : TesterState :=
  let leftTrigger := triggerVal g 6
  let rightTrigger := triggerVal g 7
  let tl := if leftTrigger > 0 then insert leftTrigger st.triggerLeft else st.triggerLeft
  let tr := if rightTrigger > 0 then insert rightTrigger st.triggerRight else st.triggerRight
  { st with triggerLeft := tl, triggerRight := tr }

/-- The axis offset of a stick (`selected === 'left' ? 0 : 2`). -/
def axisOffset : Stick → ℕ
  | Stick.left => 0
  | Stick.right => 2

/-- Push one (x, y) sample onto an oscilloscope buffer, evicting the oldest
sample from both sequences when the X sequence exceeds 200 entries. -/
def scopePush (d : ScopeData) (xv yv : Option ℚ) : ScopeData :=
  let x0 := d.x ++ [xv]
  let y0 := d.y ++ [yv]
  if x0.length > 200 then { x := x0.tail, y := y0.tail } else { x := x0, y := y0 }

/-- One call of `updateOscilloscope`: append the selected stick's raw axis
values to that stick's buffer. -/
def updateOscilloscope (st : TesterState) (g : Snapshot) : TesterState :=
  let off := axisOffset st.selectedScope
  let xValue := g.axes.get? off
  let yValue := g.axes.get? (off + 1)
  match st.selectedScope with
  | Stick.left => { st with scopeLeft := scopePush st.scopeLeft xValue yValue }
  | Stick.right => { st with scopeRight := scopePush st.scopeRight xValue yValue }

/-- The circularity noise gate: `Math.abs(x) > 0.1 || Math.abs(y) > 0.1`. -/
def circAccepts (xv yv : Option ℚ) : Bool :=
  jsAbsGt xv (1/10) || jsAbsGt yv (1/10)

/-- Push one sample onto a circularity buffer, evicting the oldest beyond
1000 entries. -/
def circPush (data : List CPoint) (p : CPoint) : List CPoint :=
  let d0 := data ++ [p]
  if d0.length > 1000 then d0.tail else d0

/-- The distance of a sample from center
(`Math.sqrt(point.x * point.x + point.y * point.y)`); `none` models the NaN
produced when a coordinate is `undefined`. -/
def cdist (p : CPoint) : Option ℚ :=
  match p.x, p.y with
  | some a, some b => some (Rat.sqrt (a * a + b * b))
  | _, _ => none

/-- The body of the error loop of `drawCircularityTest`: samples farther
than 0.5 from center contribute `|distance - 1.0|` to the accumulator; NaN
distances compare false and contribute nothing. -/
def circContribution (totalError : ℚ) (point : CPoint) : ℚ :=
  match cdist point with
  | some distance => if distance > 1/2 then totalError + |distance - 1| else totalError
  | none => totalError

/-- The accumulated circularity error of a buffer. -/
def circTotalError (data : List CPoint) : ℚ :=
  data.foldl circContribution 0

/-- The percentage shown by `drawCircularityTest`:
`(totalError / data.length) * 100`. -/
def circAvgError (data : List CPoint) : ℚ :=
  circTotalError data / data.length * 100

/-- JavaScript `toFixed(2)` on the values displayed here, as a rational
rounded to two decimal places (half away from zero rounds up, as `toFixed`
does for positive values). -/
def toFixed2 (q : ℚ) : ℚ :=
  (round (q * 100) : ℤ) / 100

/-- The display update of `drawCircularityTest`: only when more than 10
samples are retained is the error recomputed; otherwise the previously
displayed value persists. -/
def circDraw (display : ℚ) (data : List CPoint) : ℚ :=
  if data.length > 10 then toFixed2 (circAvgError data) else display

/-- One call of `updateCircularity`: gate the selected stick's raw sample
through the noise filter, push it if accepted, then redraw (which refreshes
the displayed error from the selected buffer). -/
def updateCircularity (st : TesterState) (g : Snapshot) : TesterState :=
  let off := axisOffset st.selectedCircle
  let xValue := g.axes.get? off
  let yValue := g.axes.get? (off + 1)
  match st.selectedCircle with
  | Stick.left =>
    let data := if circAccepts xValue yValue then circPush st.circLeft { x := xValue, y := yValue } else st.circLeft
    { st with circLeft := data, circErrorDisplay := circDraw st.circErrorDisplay data }
  | Stick.right =>
    let data := if circAccepts xValue yValue then circPush st.circRight { x := xValue, y := yValue } else st.circRight
    { st with circRight := data, circErrorDisplay := circDraw st.circErrorDisplay data }

-- ==========================================
-- CONNECTION HANDLERS, USER CONTROLS AND THE POLLING TICK
-- ==========================================

/-- The `handleGamepadConnected` state transition: store the gamepad; if no
controller is active, the new one becomes active. -/
def handleGamepadConnected (st : TesterState) (g : Snapshot) : TesterState :=
  let gamepads := storeInsert st.gamepads g.index g
  let active := if st.activeGamepadIndex = none then some g.index else st.activeGamepadIndex
  { st with gamepads := gamepads, activeGamepadIndex := active }

/-- The `handleGamepadDisconnected` state transition: remove the gamepad;
if it was active, fall back to the first remaining key in iteration order,
or to no active controller. -/
def handleGamepadDisconnected (st : TesterState) (i : ℕ) : TesterState :=
  let gamepads := storeErase st.gamepads i
  let active :=
    if st.activeGamepadIndex = some i then
      match storeKeys gamepads with
      | [] => none
      | j :: _ => some j
    else st.activeGamepadIndex
  { st with gamepads := gamepads, activeGamepadIndex := active }

/-- A click on controller tab `i` (tabs exist only when at least two
controllers are stored): make `i` active and clear both trigger resolution
sets. -/
def tabClick (st : TesterState) (i : ℕ) : TesterState :=
  if i ∈ storeKeys st.gamepads ∧ 2 ≤ (storeKeys st.gamepads).length then
    { st with activeGamepadIndex := some i, triggerLeft := ∅, triggerRight := ∅ }
  else st

/-- The `clearOscilloscope` action: both sticks' buffers are replaced by
empty ones. -/
def clearOscilloscope (st : TesterState) : TesterState :=
  { st with scopeLeft := { x := [], y := [] }, scopeRight := { x := [], y := [] } }

/-- The `clearCircularity` action: both sticks' scatter sets are emptied and
the displayed error is reset to 0.00. -/
def clearCircularity (st : TesterState) : TesterState :=
  { st with circLeft := [], circRight := [], circErrorDisplay := 0 }

/-- The `circle-axis` radio change handler: select the stick, then call
`clearCircularity`. -/
def selectCircle (st : TesterState) (s : Stick) : TesterState :=
  clearCircularity { st with selectedCircle := s }

/-- The `scope-axis` radio change handler: only the selection changes. -/
def selectScope (st : TesterState) (s : Stick) : TesterState :=
  { st with selectedScope := s }

/-- One iteration of `pollGamepads(timestamp)`: refresh the store with the
fresh snapshots, then, if an active controller is stored, run the full
dispatch chain on it (performance metrics, trigger pressure, oscilloscope,
circularity). -/
def pollTick (st : TesterState) (t : ℚ) (snaps : List Snapshot) : TesterState :=
  let gamepads := snaps.foldl (fun s g => storeInsert s g.index g) st.gamepads
  let st := { st with gamepads := gamepads }
  match st.activeGamepadIndex with
  | some i =>
    match storeGet st.gamepads i with
    | some g =>
      let st := { st with perf := perfStep st.perf t }
      let st := updateTriggerPressure st g
      let st := updateOscilloscope st g
      updateCircularity st g
    | none => st
  | none => st

/-- The external inputs that drive the session state. -/
inductive Event where
  | connected (g : Snapshot)
  | disconnected (i : ℕ)
  | tab (i : ℕ)
  | scopeSel (s : Stick)
  | circleSel (s : Stick)
  | scopeClear
  | circleClear
  | tick (t : ℚ) (snaps : List Snapshot)
deriving DecidableEq

/-- Dispatch one event to its handler. -/
def stepEvent (st : TesterState) : Event → TesterState
  | Event.connected g => handleGamepadConnected st g
  | Event.disconnected i => handleGamepadDisconnected st i
  | Event.tab i => tabClick st i
  | Event.scopeSel s => selectScope st s
  | Event.circleSel s => selectCircle st s
  | Event.scopeClear => clearOscilloscope st
  | Event.circleClear => clearCircularity st
  | Event.tick t snaps => pollTick st t snaps

/-- Run a whole session: fold a sequence of events over a starting state. -/
def run (st : TesterState) (es : List Event) : TesterState :=
  es.foldl stepEvent st

-- ==========================================
-- HELPER LEMMAS
-- ==========================================

unseal Rat.add Rat.mul Rat.inv Rat.sub Rat.ofScientific

theorem scopePush_length_x (d : ScopeData) (xv yv : Option ℚ) :
    (scopePush d xv yv).x.length =
      if d.x.length + 1 > 200 then d.x.length else d.x.length + 1 := by
  by_cases h : 200 < d.x.length + 1 <;>
    simp [scopePush, h, List.length_append, List.length_tail]

theorem scopePush_length_y (d : ScopeData) (xv yv : Option ℚ) :
    (scopePush d xv yv).y.length =
      if d.x.length + 1 > 200 then d.y.length else d.y.length + 1 := by
  by_cases h : 200 < d.x.length + 1 <;>
    simp [scopePush, h, List.length_append, List.length_tail]

theorem circPush_length (data : List CPoint) (p : CPoint) :
    (circPush data p).length =
      if data.length + 1 > 1000 then data.length else data.length + 1 := by
  by_cases h : 1000 < data.length + 1 <;>
    simp [circPush, h, List.length_append, List.length_tail]

theorem circPush_suffix (data : List CPoint) (p : CPoint) :
    circPush data p <:+ data ++ [p] := by
  simp only [circPush, List.length_append, List.length_singleton]
  by_cases h : 1000 < data.length + 1
  · rw [if_pos h]; exact List.tail_suffix _
  · rw [if_neg h]

theorem circPush_getLast (data : List CPoint) (p : CPoint) :
    (circPush data p).getLast? = some p := by
  simp only [circPush, List.length_append, List.length_singleton]
  by_cases h : 1000 < data.length + 1
  · rw [if_pos h]
    cases data with
    | nil => simp at h
    | cons a l => simp [List.cons_append, List.getLast?_concat]
  · rw [if_neg h]; exact List.getLast?_concat _

theorem scopePush_getLast_x (d : ScopeData) (xv yv : Option ℚ) :
    (scopePush d xv yv).x.getLast? = some xv := by
  simp only [scopePush, List.length_append, List.length_singleton]
  by_cases h : 200 < d.x.length + 1
  · rw [if_pos h]
    cases hx : d.x with
    | nil => rw [hx] at h; simp at h
    | cons a l => simp [List.cons_append, List.getLast?_concat]
  · rw [if_neg h]; exact List.getLast?_concat _

theorem scopePush_getLast_y (d : ScopeData) (xv yv : Option ℚ)
    (hlen : d.x.length = d.y.length) :
    (scopePush d xv yv).y.getLast? = some yv := by
  simp only [scopePush, List.length_append, List.length_singleton]
  by_cases h : 200 < d.x.length + 1
  · rw [if_pos h]
    cases hy : d.y with
    | nil => rw [hy, List.length_nil] at hlen; omega
    | cons a l => simp [List.cons_append, List.getLast?_concat]
  · rw [if_neg h]; exact List.getLast?_concat _

theorem scopePush_len_eq (d : ScopeData) (xv yv : Option ℚ)
    (h : d.x.length = d.y.length) :
    (scopePush d xv yv).x.length = (scopePush d xv yv).y.length := by
  rw [scopePush_length_x, scopePush_length_y]
  split <;> omega

theorem scopePush_len_le (d : ScopeData) (xv yv : Option ℚ)
    (h : d.x.length ≤ 200) :
    (scopePush d xv yv).x.length ≤ 200 := by
  rw [scopePush_length_x]
  split <;> omega

theorem circPush_le (data : List CPoint) (p : CPoint)
    (h : data.length ≤ 1000) :
    (circPush data p).length ≤ 1000 := by
  rw [circPush_length]
  split <;> omega

/-- The buffer-size invariant maintained by every event: the two
oscilloscope sequences of each stick have equal length, at most 200, and
each circularity scatter set has at most 1000 points. -/
def BufInv (st : TesterState) : Prop :=
  st.scopeLeft.x.length = st.scopeLeft.y.length ∧ st.scopeLeft.x.length ≤ 200 ∧
  st.scopeRight.x.length = st.scopeRight.y.length ∧ st.scopeRight.x.length ≤ 200 ∧
  st.circLeft.length ≤ 1000 ∧ st.circRight.length ≤ 1000

theorem bufInv_updateTriggerPressure (st : TesterState) (g : Snapshot)
    (h : BufInv st) : BufInv (updateTriggerPressure st g) := h

theorem bufInv_updateOscilloscope (st : TesterState) (g : Snapshot)
    (h : BufInv st) : BufInv (updateOscilloscope st g) := by
  obtain ⟨h1, h2, h3, h4, h5, h6⟩ := h
  cases hs : st.selectedScope
  · simp only [updateOscilloscope, hs]
    exact ⟨scopePush_len_eq _ _ _ h1, scopePush_len_le _ _ _ h2, h3, h4, h5, h6⟩
  · simp only [updateOscilloscope, hs]
    exact ⟨h1, h2, scopePush_len_eq _ _ _ h3, scopePush_len_le _ _ _ h4, h5, h6⟩

theorem bufInv_updateCircularity (st : TesterState) (g : Snapshot)
    (h : BufInv st) : BufInv (updateCircularity st g) := by
  obtain ⟨h1, h2, h3, h4, h5, h6⟩ := h
  cases hs : st.selectedCircle
  · simp only [updateCircularity, hs]
    refine ⟨h1, h2, h3, h4, ?_, h6⟩
    split
    · exact circPush_le _ _ h5
    · exact h5
  · simp only [updateCircularity, hs]
    refine ⟨h1, h2, h3, h4, h5, ?_⟩
    split
    · exact circPush_le _ _ h6
    · exact h6

theorem bufInv_step (st : TesterState) (e : Event) (h : BufInv st) :
    BufInv (stepEvent st e) := by
  obtain ⟨h1, h2, h3, h4, h5, h6⟩ := h
  cases e with
  | connected g => exact ⟨h1, h2, h3, h4, h5, h6⟩
  | disconnected i => exact ⟨h1, h2, h3, h4, h5, h6⟩
  | tab i =>
    simp only [stepEvent, tabClick]
    split <;> exact ⟨h1, h2, h3, h4, h5, h6⟩
  | scopeSel s => exact ⟨h1, h2, h3, h4, h5, h6⟩
  | circleSel s =>
    refine ⟨h1, h2, h3, h4, ?_, ?_⟩ <;>
      simp [stepEvent, selectCircle, clearCircularity]
  | scopeClear =>
    refine ⟨?_, ?_, ?_, ?_, h5, h6⟩ <;>
      simp [stepEvent, clearOscilloscope]
  | circleClear =>
    refine ⟨h1, h2, h3, h4, ?_, ?_⟩ <;>
      simp [stepEvent, clearCircularity]
  | tick t snaps =>
    simp only [stepEvent, pollTick]
    split
    · split
      · exact bufInv_updateCircularity _ _ (bufInv_updateOscilloscope _ _
          (bufInv_updateTriggerPressure _ _ ⟨h1, h2, h3, h4, h5, h6⟩))
      · exact ⟨h1, h2, h3, h4, h5, h6⟩
    · exact ⟨h1, h2, h3, h4, h5, h6⟩

theorem bufInv_run (st : TesterState) (es : List Event) (h : BufInv st) :
    BufInv (run st es) := by
  induction es generalizing st with
  | nil => exact h
  | cons e es ih => exact ih _ (bufInv_step st e h)

theorem bufInv_initState : BufInv initState :=
  ⟨rfl, by simp [initState], rfl, by simp [initState], by simp [initState], by simp [initState]⟩

theorem scopePush_suffix_x (d : ScopeData) (xv yv : Option ℚ) :
    (scopePush d xv yv).x <:+ d.x ++ [xv] := by
  simp only [scopePush, List.length_append, List.length_singleton]
  by_cases h : 200 < d.x.length + 1
  · rw [if_pos h]; exact List.tail_suffix _
  · rw [if_neg h]

theorem scopePush_suffix_y (d : ScopeData) (xv yv : Option ℚ) :
    (scopePush d xv yv).y <:+ d.y ++ [yv] := by
  simp only [scopePush, List.length_append, List.length_singleton]
  by_cases h : 200 < d.x.length + 1
  · rw [if_pos h]; exact List.tail_suffix _
  · rw [if_neg h]

-- ==========================================
-- CLAIM THEOREMS
-- ==========================================

/-- C10: when a controller-connected event is handled and no controller is
currently active, the newly connected controller becomes the active one;
when a controller is already active, the active selection is unchanged. -/
theorem C10_active_selection (st : TesterState) (g : Snapshot) :
    (handleGamepadConnected st g).activeGamepadIndex =
      if st.activeGamepadIndex = none then some g.index else st.activeGamepadIndex :=
  rfl

/-- C3 (code bug): the rate computation is NOT guarded against division by
zero.  Two identical consecutive host timestamps make the average frame
delta 0, the polling rate becomes infinity, and infinity propagates through
`Math.round` into the polling-rate display instead of a sentinel. -/
theorem C3_infinity_reaches_display :
    displayedRate (runPerf initPerf [5, 5]) = JSNum.inf := by
  decide

/-- C9 (counterexample): switching the selected circularity stick from
right to left also empties the RIGHT stick's scatter set, contradicting the
claim that the other stick's set is left unchanged. -/
theorem C9_counterexample :
    let g : Snapshot := { index := 0, axes := [0, 0, 1, 0], buttons := [], timestamp := 0 }
    let st := run initState [Event.connected g, Event.circleSel Stick.right, Event.tick 5 [g]]
    st.circRight = [{ x := some 1, y := some 0 }] ∧
      (stepEvent st (Event.circleSel Stick.left)).circRight = [] := by
  decide

/-- C9 (amended): switching the selected circularity stick or issuing an
explicit clear empties BOTH sticks' scatter sets (not only the selected
one) and resets the displayed error to 0.00%. -/
theorem C9_amended (st : TesterState) (s : Stick) :
    (stepEvent st (Event.circleSel s)).circLeft = [] ∧
    (stepEvent st (Event.circleSel s)).circRight = [] ∧
    (stepEvent st (Event.circleSel s)).circErrorDisplay = 0 ∧
    (stepEvent st (Event.circleSel s)).selectedCircle = s ∧
    (stepEvent st Event.circleClear).circLeft = [] ∧
    (stepEvent st Event.circleClear).circRight = [] ∧
    (stepEvent st Event.circleClear).circErrorDisplay = 0 :=
  ⟨rfl, rfl, rfl, rfl, rfl, rfl, rfl⟩

/-- C6: a circularity sample (x, y) is appended iff |x| > 0.1 or |y| > 0.1;
the sample (0.05, 0.03) is rejected and (0.12, 0) is accepted; the scatter
set never exceeds 1000 entries over any event sequence, and a push evicts
only from the front (the result is a suffix of the old buffer plus the new
point). -/
theorem C6_circularity_accept :
    (∀ x y : ℚ, circAccepts (some x) (some y) = true ↔ (|x| > 1/10 ∨ |y| > 1/10)) ∧
    circAccepts (some (1/20)) (some (3/100)) = false ∧
    circAccepts (some (3/25)) (some 0) = true ∧
    (∀ (data : List CPoint) (p : CPoint), circPush data p <:+ data ++ [p]) ∧
    (∀ (data : List CPoint) (p : CPoint),
      (circPush data p).length = if data.length + 1 > 1000 then data.length else data.length + 1) ∧
    (∀ es, (run initState es).circLeft.length ≤ 1000 ∧
      (run initState es).circRight.length ≤ 1000) := by
  refine ⟨?_, ?_, ?_, circPush_suffix, circPush_length, ?_⟩
  · intro x y
    simp [circAccepts, jsAbsGt]
  · norm_num [circAccepts, jsAbsGt, abs_le]
  · norm_num [circAccepts, jsAbsGt, abs_of_nonneg]
  · intro es
    have h := bufInv_run initState es bufInv_initState
    exact ⟨h.2.2.2.2.1, h.2.2.2.2.2⟩

/-- C7: over any event sequence the oscilloscope X and Y sequences of each
stick have equal length, at most 200; a push appends to both and, past the
bound, evicts the oldest sample from both in lockstep (each result is a
suffix of the corresponding old sequence plus the new sample, with the
lengths shown). -/
theorem C7_scope_invariant :
    (∀ es, (run initState es).scopeLeft.x.length = (run initState es).scopeLeft.y.length ∧
      (run initState es).scopeLeft.x.length ≤ 200 ∧
      (run initState es).scopeRight.x.length = (run initState es).scopeRight.y.length ∧
      (run initState es).scopeRight.x.length ≤ 200) ∧
    (∀ (d : ScopeData) (xv yv : Option ℚ),
      (scopePush d xv yv).x <:+ d.x ++ [xv] ∧ (scopePush d xv yv).y <:+ d.y ++ [yv]) ∧
    (∀ (d : ScopeData) (xv yv : Option ℚ),
      (scopePush d xv yv).x.length = if d.x.length + 1 > 200 then d.x.length else d.x.length + 1) ∧
    (∀ (d : ScopeData) (xv yv : Option ℚ),
      (scopePush d xv yv).y.length = if d.x.length + 1 > 200 then d.y.length else d.y.length + 1) := by
  refine ⟨?_, fun d xv yv => ⟨scopePush_suffix_x d xv yv, scopePush_suffix_y d xv yv⟩,
    scopePush_length_x, scopePush_length_y⟩
  intro es
  have h := bufInv_run initState es bufInv_initState
  exact ⟨h.1, h.2.1, h.2.2.1, h.2.2.2.1⟩

theorem updateOscilloscope_triggerLeft (st : TesterState) (g : Snapshot) :
    (updateOscilloscope st g).triggerLeft = st.triggerLeft := by
  cases hs : st.selectedScope <;> simp [updateOscilloscope, hs]

theorem updateOscilloscope_triggerRight (st : TesterState) (g : Snapshot) :
    (updateOscilloscope st g).triggerRight = st.triggerRight := by
  cases hs : st.selectedScope <;> simp [updateOscilloscope, hs]

theorem updateCircularity_triggerLeft (st : TesterState) (g : Snapshot) :
    (updateCircularity st g).triggerLeft = st.triggerLeft := by
  cases hs : st.selectedCircle <;> simp [updateCircularity, hs]

theorem updateCircularity_triggerRight (st : TesterState) (g : Snapshot) :
    (updateCircularity st g).triggerRight = st.triggerRight := by
  cases hs : st.selectedCircle <;> simp [updateCircularity, hs]

theorem updateTriggerPressure_subset (st : TesterState) (g : Snapshot) :
    st.triggerLeft ⊆ (updateTriggerPressure st g).triggerLeft ∧
    st.triggerRight ⊆ (updateTriggerPressure st g).triggerRight := by
  constructor <;> simp only [updateTriggerPressure] <;> split <;>
    first
      | exact Finset.subset_insert _ _
      | exact Finset.Subset.refl _

theorem pollTick_triggerLeft_subset (st : TesterState) (t : ℚ) (snaps : List Snapshot) :
    st.triggerLeft ⊆ (pollTick st t snaps).triggerLeft := by
  simp only [pollTick]
  split
  · split
    · rw [updateCircularity_triggerLeft, updateOscilloscope_triggerLeft]
      exact (updateTriggerPressure_subset _ _).1
    · exact Finset.Subset.refl _
  · exact Finset.Subset.refl _

theorem pollTick_triggerRight_subset (st : TesterState) (t : ℚ) (snaps : List Snapshot) :
    st.triggerRight ⊆ (pollTick st t snaps).triggerRight := by
  simp only [pollTick]
  split
  · split
    · rw [updateCircularity_triggerRight, updateOscilloscope_triggerRight]
      exact (updateTriggerPressure_subset _ _).2
    · exact Finset.Subset.refl _
  · exact Finset.Subset.refl _

/-- C4 (counterexample): with two controllers stored and trigger samples
accumulated, disconnecting the active controller switches the active
selection (from 1 to 2) but does NOT clear the trigger resolution sets,
contradicting the claim that every switch clears them. -/
theorem C4_counterexample :
    let gA : Snapshot := ⟨1, [0, 0, 0, 0], List.replicate 6 ⟨false, 0⟩ ++ [⟨false, 1/2⟩, ⟨false, 0⟩], 0⟩
    let gB : Snapshot := ⟨2, [0, 0, 0, 0], [], 0⟩
    let st := run initState [Event.connected gA, Event.connected gB, Event.tick 5 [gA]]
    st.activeGamepadIndex = some 1 ∧
      (stepEvent st (Event.disconnected 1)).activeGamepadIndex = some 2 ∧
      (stepEvent st (Event.disconnected 1)).triggerLeft ≠ ∅ := by
  decide

/-- C4 (amended): the trigger resolution sets only grow across ticks (so
their cardinality is monotonically non-decreasing for a fixed active
controller); a tab-click switch clears both sets, but switches caused by
connect or disconnect events leave them unchanged. -/
theorem C4_amended :
    (∀ (st : TesterState) (t : ℚ) (snaps : List Snapshot),
      st.triggerLeft ⊆ (pollTick st t snaps).triggerLeft ∧
      st.triggerRight ⊆ (pollTick st t snaps).triggerRight ∧
      st.triggerLeft.card ≤ (pollTick st t snaps).triggerLeft.card ∧
      st.triggerRight.card ≤ (pollTick st t snaps).triggerRight.card) ∧
    (∀ (st : TesterState) (i : ℕ),
      (tabClick st i).activeGamepadIndex =
        (if i ∈ storeKeys st.gamepads ∧ 2 ≤ (storeKeys st.gamepads).length then some i
          else st.activeGamepadIndex) ∧
      (tabClick st i).triggerLeft =
        (if i ∈ storeKeys st.gamepads ∧ 2 ≤ (storeKeys st.gamepads).length then ∅
          else st.triggerLeft) ∧
      (tabClick st i).triggerRight =
        (if i ∈ storeKeys st.gamepads ∧ 2 ≤ (storeKeys st.gamepads).length then ∅
          else st.triggerRight)) ∧
    (∀ (st : TesterState) (i : ℕ),
      (handleGamepadDisconnected st i).triggerLeft = st.triggerLeft ∧
      (handleGamepadDisconnected st i).triggerRight = st.triggerRight) ∧
    (∀ (st : TesterState) (g : Snapshot),
      (handleGamepadConnected st g).triggerLeft = st.triggerLeft ∧
      (handleGamepadConnected st g).triggerRight = st.triggerRight) := by
  refine ⟨?_, ?_, fun st i => ⟨rfl, rfl⟩, fun st g => ⟨rfl, rfl⟩⟩
  · intro st t snaps
    exact ⟨pollTick_triggerLeft_subset st t snaps, pollTick_triggerRight_subset st t snaps,
      Finset.card_le_card (pollTick_triggerLeft_subset st t snaps),
      Finset.card_le_card (pollTick_triggerRight_subset st t snaps)⟩
  · intro st i
    refine ⟨?_, ?_, ?_⟩ <;> simp only [tabClick] <;> split <;> rfl

/-- C5 (counterexample): with a snapshot reporting no axes and the right
stick selected, the oscilloscope pushes the undefined marker into its
buffer rather than the value 0, contradicting the claim that every
consumer treats missing entries as 0. -/
theorem C5_counterexample :
    let g : Snapshot := { index := 0, axes := [], buttons := [], timestamp := 0 }
    let st := run initState [Event.connected g, Event.scopeSel Stick.right, Event.tick 5 [g]]
    st.scopeRight.x = [none] ∧ st.scopeRight.x ≠ [some 0] := by
  decide

/-- C5 (amended): no consumer raises on a short snapshot.  The trigger
tracker and the visual stick display treat missing entries as value 0 /
centered; the circularity accept test treats a missing axis as failing its
magnitude check (as a 0 would), and its error metric skips points with a
missing coordinate; the oscilloscope, however, stores the undefined marker
itself rather than 0. -/
theorem C5_amended :
    (∀ (g : Snapshot) (k : ℕ), triggerVal g k =
      if h : k < g.buttons.length then (g.buttons.get ⟨k, h⟩).value else 0) ∧
    stickDisplay none = 0 ∧
    (∀ t : ℚ, jsAbsGt none t = false) ∧
    (∀ yv : Option ℚ, circAccepts none yv = jsAbsGt yv (1/10)) ∧
    jsAbsGt (some 0) (1/10) = false ∧
    (∀ d : ScopeData, (scopePush d none none).x.getLast? = some none) ∧
    (∀ y : Option ℚ, cdist { x := none, y := y } = none) ∧
    (∀ x : Option ℚ, cdist { x := x, y := none } = none) := by
  refine ⟨?_, rfl, fun t => rfl, fun yv => rfl, ?_, fun d => scopePush_getLast_x d none none,
    fun y => rfl, ?_⟩
  · intro g k
    by_cases h : k < g.buttons.length
    · rw [dif_pos h, triggerVal, List.get?_eq_get h]
    · rw [dif_neg h, triggerVal, List.get?_eq_none.2 (Nat.le_of_not_lt h)]
  · norm_num [jsAbsGt]
  · intro x
    cases x <;> rfl

/-- C8: the analytics components consume raw snapshot values.  A scope push
stores exactly the raw (x, y) pair; `updateOscilloscope` feeds the raw axis
reads of the selected stick; the trigger tracker inserts the raw trigger
value; the circularity buffer stores the raw accepted pair; the rate
estimator records the raw tick timestamp.  The 0.05 deadzone appears only
in `stickDisplay`, which maps the raw 0.03 to 0 while the analytics would
store 0.03 itself. -/
theorem C8_raw_analytics (d : ScopeData) (xv yv : Option ℚ)
    (hlen : d.x.length = d.y.length) :
    (scopePush d xv yv).x.getLast? = some xv ∧
    (scopePush d xv yv).y.getLast? = some yv ∧
    (∀ (st : TesterState) (g : Snapshot), st.selectedScope = Stick.left →
      (updateOscilloscope st g).scopeLeft = scopePush st.scopeLeft (g.axes.get? 0) (g.axes.get? 1)) ∧
    (∀ (st : TesterState) (g : Snapshot), st.selectedScope = Stick.right →
      (updateOscilloscope st g).scopeRight = scopePush st.scopeRight (g.axes.get? 2) (g.axes.get? 3)) ∧
    (∀ (st : TesterState) (g : Snapshot),
      (updateTriggerPressure st g).triggerLeft =
        (if triggerVal g 6 > 0 then insert (triggerVal g 6) st.triggerLeft else st.triggerLeft) ∧
      (updateTriggerPressure st g).triggerRight =
        (if triggerVal g 7 > 0 then insert (triggerVal g 7) st.triggerRight else st.triggerRight)) ∧
    (∀ (st : TesterState) (g : Snapshot), st.selectedCircle = Stick.left →
      (updateCircularity st g).circLeft =
        (if circAccepts (g.axes.get? 0) (g.axes.get? 1) then
          circPush st.circLeft { x := g.axes.get? 0, y := g.axes.get? 1 } else st.circLeft)) ∧
    (∀ (data : List CPoint) (pv qv : Option ℚ),
      (if circAccepts pv qv then circPush data { x := pv, y := qv } else data).getLast? =
        (if circAccepts pv qv then some { x := pv, y := qv } else data.getLast?)) ∧
    (∀ v : ℚ, stickDisplay (some v) = if |v| > 1/20 then v else 0) ∧
    stickDisplay (some (3/100)) = 0 ∧
    (∀ (p : PerfState) (t : ℚ), (perfStep p t).lastTimestamp = t) := by
  refine ⟨scopePush_getLast_x d xv yv, scopePush_getLast_y d xv yv hlen, ?_, ?_, ?_, ?_, ?_, ?_, ?_, ?_⟩
  · intro st g h
    simp [updateOscilloscope, h, axisOffset]
  · intro st g h
    simp [updateOscilloscope, h, axisOffset]
  · intro st g
    exact ⟨rfl, rfl⟩
  · intro st g h
    simp [updateCircularity, h, axisOffset]
  · intro data pv qv
    by_cases h : circAccepts pv qv
    · rw [if_pos h, if_pos h, circPush_getLast]
    · rw [if_neg h, if_neg h]
  · intro v
    simp [stickDisplay, jsAbsGt]
  · norm_num [stickDisplay, jsAbsGt, abs_le]
  · intro p t
    simp only [perfStep]
    split <;> rfl

/-- Witness for C8: the raw-value facts instantiated at the empty
oscilloscope buffer and the sub-deadzone sample 0.03. -/
theorem C8_raw_analytics_witness :
    (scopePush ⟨[], []⟩ (some (3/100)) (some 0)).x.getLast? = some (some (3/100)) ∧
    (scopePush ⟨[], []⟩ (some (3/100)) (some 0)).y.getLast? = some (some 0) ∧
    (∀ (st : TesterState) (g : Snapshot), st.selectedScope = Stick.left →
      (updateOscilloscope st g).scopeLeft = scopePush st.scopeLeft (g.axes.get? 0) (g.axes.get? 1)) ∧
    (∀ (st : TesterState) (g : Snapshot), st.selectedScope = Stick.right →
      (updateOscilloscope st g).scopeRight = scopePush st.scopeRight (g.axes.get? 2) (g.axes.get? 3)) ∧
    (∀ (st : TesterState) (g : Snapshot),
      (updateTriggerPressure st g).triggerLeft =
        (if triggerVal g 6 > 0 then insert (triggerVal g 6) st.triggerLeft else st.triggerLeft) ∧
      (updateTriggerPressure st g).triggerRight =
        (if triggerVal g 7 > 0 then insert (triggerVal g 7) st.triggerRight else st.triggerRight)) ∧
    (∀ (st : TesterState) (g : Snapshot), st.selectedCircle = Stick.left →
      (updateCircularity st g).circLeft =
        (if circAccepts (g.axes.get? 0) (g.axes.get? 1) then
          circPush st.circLeft { x := g.axes.get? 0, y := g.axes.get? 1 } else st.circLeft)) ∧
    (∀ (data : List CPoint) (pv qv : Option ℚ),
      (if circAccepts pv qv then circPush data { x := pv, y := qv } else data).getLast? =
        (if circAccepts pv qv then some { x := pv, y := qv } else data.getLast?)) ∧
    (∀ v : ℚ, stickDisplay (some v) = if |v| > 1/20 then v else 0) ∧
    stickDisplay (some (3/100)) = 0 ∧
    (∀ (p : PerfState) (t : ℚ), (perfStep p t).lastTimestamp = t) :=
  C8_raw_analytics ⟨[], []⟩ (some (3/100)) (some 0) rfl

-- ==========================================
-- CIRCULARITY ERROR: SPECIFICATION FORM AND CLAIM C1
-- ==========================================

/-- Specification-side distance of a rational sample from center. -/
def sampleDist (q : ℚ × ℚ) : ℚ :=
  Rat.sqrt (q.1 * q.1 + q.2 * q.2)

/-- The circularity error as the specification words it: the sum of
`|distance - 1|` over retained samples whose distance strictly exceeds 0.5,
divided by the TOTAL number of retained samples, times 100. -/
def circAvgErrorRef (l : List (ℚ × ℚ)) : ℚ :=
  ((l.filter (fun q => 1/2 < sampleDist q)).map (fun q => |sampleDist q - 1|)).sum /
    l.length * 100

/-- A circularity sample with both coordinates present. -/
def mkPoint (x y : ℚ) : CPoint :=
  { x := some x, y := some y }

/-- A buffer of fully-present samples. -/
def mkData (l : List (ℚ × ℚ)) : List CPoint :=
  l.map (fun q => mkPoint q.1 q.2)

theorem cdist_mkPoint (x y : ℚ) :
    cdist (mkPoint x y) = some (Rat.sqrt (x * x + y * y)) :=
  rfl

theorem circContribution_eq (a : ℚ) (p : CPoint) :
    circContribution a p = a + circContribution 0 p := by
  cases h : cdist p <;> simp only [circContribution, h]
  · simp
  · split <;> simp

theorem circTotalError_acc (data : List CPoint) (a : ℚ) :
    data.foldl circContribution a = a + circTotalError data := by
  induction data generalizing a with
  | nil => simp [circTotalError]
  | cons p l ih =>
    rw [circTotalError, List.foldl_cons, List.foldl_cons, ih, ih (circContribution 0 p),
      circContribution_eq]
    ring

theorem circContribution_zero (x y : ℚ) :
    circContribution 0 (mkPoint x y) =
      if 1/2 < Rat.sqrt (x * x + y * y) then |Rat.sqrt (x * x + y * y) - 1| else 0 := by
  show (if Rat.sqrt (x * x + y * y) > 1/2
    then 0 + |Rat.sqrt (x * x + y * y) - 1| else 0) = _
  split <;> simp

theorem circTotalError_mkData (l : List (ℚ × ℚ)) :
    circTotalError (mkData l) =
      ((l.filter (fun q => 1/2 < sampleDist q)).map (fun q => |sampleDist q - 1|)).sum := by
  induction l with
  | nil => rfl
  | cons q l ih =>
    have hstep : circTotalError (mkData (q :: l)) =
        circContribution 0 (mkPoint q.1 q.2) + circTotalError (mkData l) := by
      rw [mkData, List.map_cons, circTotalError, List.foldl_cons, circTotalError_acc, mkData]
    rw [hstep, ih, circContribution_zero, List.filter_cons]
    by_cases hq : 1/2 < sampleDist q
    · have hq' : (1:ℚ)/2 < Rat.sqrt (q.1 * q.1 + q.2 * q.2) := by simpa [sampleDist] using hq
      rw [if_pos hq', if_pos (by simpa using hq), List.map_cons, List.sum_cons]
      simp [sampleDist]
    · have hq' : ¬ (1:ℚ)/2 < Rat.sqrt (q.1 * q.1 + q.2 * q.2) := by simpa [sampleDist] using hq
      rw [if_neg hq', if_neg (by simpa using hq)]
      simp

theorem circAvgError_mkData (l : List (ℚ × ℚ)) :
    circAvgError (mkData l) = circAvgErrorRef l := by
  rw [circAvgError, circAvgErrorRef, circTotalError_mkData, mkData, List.length_map]

theorem foldl_const_replicate (f : ℚ → CPoint → ℚ) (p : CPoint) (hf : ∀ a, f a p = a) :
    ∀ (n : ℕ) (a : ℚ), (List.replicate n p).foldl f a = a
  | 0, _ => rfl
  | n + 1, a => by
    rw [List.replicate_succ, List.foldl_cons, hf]
    exact foldl_const_replicate f p hf n a

theorem circContribution_half (a : ℚ) :
    circContribution a (mkPoint (3/10) (2/5)) = a := by
  have hs : Rat.sqrt (3/10 * (3/10) + 2/5 * (2/5)) = 1/2 := by norm_num [Rat.sqrt]
  show (if Rat.sqrt (3/10 * (3/10) + 2/5 * (2/5)) > 1/2
    then a + |Rat.sqrt (3/10 * (3/10) + 2/5 * (2/5)) - 1| else a) = a
  rw [hs]
  norm_num

/-- C1: with more than 10 retained samples, the displayed circularity error
is the sum of |distance - 1| over the samples whose distance strictly
exceeds 0.5, divided by the TOTAL retained-sample count, times 100, shown
to two decimal places; 20 samples at distance exactly 0.5 (excluded by the
strict threshold) yield 0.00%; with 10 or fewer samples no error is
computed and the previous display persists. -/
theorem C1_circularity_error :
    (∀ (display : ℚ) (l : List (ℚ × ℚ)),
      circDraw display (mkData l) =
        if l.length > 10 then toFixed2 (circAvgErrorRef l) else display) ∧
    circAvgError (mkData (List.replicate 20 (3/10, 2/5))) = 0 ∧
    (∀ display : ℚ, circDraw display (mkData (List.replicate 20 (3/10, 2/5))) = 0) := by
  have hlen : ∀ l : List (ℚ × ℚ), (mkData l).length = l.length := by
    intro l
    rw [mkData, List.length_map]
  have h20 : circTotalError (mkData (List.replicate 20 (3/10, 2/5))) = 0 := by
    have : mkData (List.replicate 20 (3/10, 2/5)) =
        List.replicate 20 (mkPoint (3/10) (2/5)) := by
      rw [mkData, List.map_replicate]
    rw [circTotalError, this]
    exact foldl_const_replicate _ _ circContribution_half 20 0
  have havg : circAvgError (mkData (List.replicate 20 (3/10, 2/5))) = 0 := by
    rw [circAvgError, h20]
    norm_num
  refine ⟨?_, havg, ?_⟩
  · intro display l
    rw [circDraw, hlen l]
    by_cases h : l.length > 10
    · rw [if_pos h, if_pos h, circAvgError_mkData]
    · rw [if_neg h, if_neg h]
  · intro display
    rw [circDraw, hlen, if_pos (by norm_num), havg]
    norm_num [toFixed2]

-- ==========================================
-- RATE ESTIMATOR: CLAIMS C2 AND C3 SUPPORT
-- ==========================================

set_option maxRecDepth 100000 in
/-- C2 (counterexample): for the 62 timestamps 1, 2, ..., 61, 64 (61 frame
deltas: sixty 1 ms deltas then one 3 ms delta) the displayed average
polling rate is 999 Hz, while 1000 divided by the mean of the last 60
deltas rounds to 968 Hz: the display averages the per-tick rates, not the
rate of the averaged deltas. -/
theorem C2_counterexample :
    let ts : List ℚ := (List.range 61).map (fun i => ((i : ℚ) + 1)) ++ [64]
    displayedRate (runPerf initPerf ts) ≠
      jsRound (jsDiv 1000 (mean (lastN 60 (deltasOf ts)))) := by
  decide

theorem perfStep_lastTimestamp (s : PerfState) (t : ℚ) :
    (perfStep s t).lastTimestamp = t := by
  simp only [perfStep]
  split <;> rfl

theorem runPerf_append (s : PerfState) (ts : List ℚ) (t : ℚ) :
    runPerf s (ts ++ [t]) = perfStep (runPerf s ts) t := by
  simp [runPerf, List.foldl_append]

theorem runPerf_lastTimestamp (ts : List ℚ) :
    (runPerf initPerf ts).lastTimestamp = ts.getLastD 0 := by
  induction ts using List.reverseRecOn with
  | nil => rfl
  | append_singleton us t ih =>
    rw [runPerf_append, perfStep_lastTimestamp, List.getLastD_eq_getLast?,
      List.getLast?_concat]
    rfl

theorem perfStep_pos_frameDeltas (s : PerfState) (t : ℚ) (h : s.lastTimestamp > 0) :
    (perfStep s t).frameDeltas = pushWin 60 s.frameDeltas (t - s.lastTimestamp) := by
  simp only [perfStep]
  rw [if_pos h]
  rfl

theorem perfStep_pos_pollingRates (s : PerfState) (t : ℚ) (h : s.lastTimestamp > 0) :
    (perfStep s t).pollingRates = pushWin 60 s.pollingRates
      (jsDiv 1000 (mean (pushWin 60 s.frameDeltas (t - s.lastTimestamp)))) := by
  simp only [perfStep]
  rw [if_pos h]
  rfl

theorem deltaChain_append (ts : List ℚ) (t : ℚ) :
    ∀ p, deltaChain p (ts ++ [t]) = deltaChain p ts ++ [t - ts.getLastD p] := by
  induction ts with
  | nil => intro p; rfl
  | cons u us ih =>
    intro p
    show (u - p) :: deltaChain u (us ++ [t]) =
      (u - p) :: (deltaChain u us ++ [t - (u :: us).getLastD p])
    rw [ih u, List.getLastD_cons]

theorem deltasOf_append (ts : List ℚ) (h : ts ≠ []) (t : ℚ) :
    deltasOf (ts ++ [t]) = deltasOf ts ++ [t - ts.getLastD 0] := by
  cases ts with
  | nil => exact absurd rfl h
  | cons u us =>
    simp only [List.cons_append, deltasOf, deltaChain_append, List.getLastD_cons]

theorem lastN_length_le (n : ℕ) (xs : List α) : (lastN n xs).length ≤ n := by
  simp only [lastN, List.length_drop]
  omega

theorem tail_append_singleton_of_ne_nil {l : List α} (x : α) (h : l ≠ []) :
    (l ++ [x]).tail = l.tail ++ [x] := by
  cases l with
  | nil => exact absurd rfl h
  | cons a as => rfl

theorem lastN_append (n : ℕ) (hn : 0 < n) (xs : List α) (x : α) :
    lastN n (xs ++ [x]) = pushWin n (lastN n xs) x := by
  simp only [lastN, pushWin, List.length_append, List.length_singleton, List.length_drop]
  by_cases h : xs.length < n
  · rw [if_neg (by omega)]
    have h1 : xs.length + 1 - n = 0 := by omega
    have h2 : xs.length - n = 0 := by omega
    rw [h1, h2, List.drop_zero, List.drop_zero]
  · rw [if_pos (by omega)]
    have hne : xs.drop (xs.length - n) ≠ [] := by
      apply List.ne_nil_of_length_pos
      rw [List.length_drop]
      omega
    rw [tail_append_singleton_of_ne_nil x hne, List.tail_drop,
      List.drop_append_of_le_length (by omega)]
    have h3 : xs.length + 1 - n = xs.length - n + 1 := by omega
    rw [h3]

theorem ratesOf_append (ds : List ℚ) (d : ℚ) :
    ratesOf (ds ++ [d]) = ratesOf ds ++ [jsDiv 1000 (mean (lastN 60 (ds ++ [d])))] := by
  simp only [ratesOf, List.length_append, List.length_singleton]
  rw [List.range_succ, List.map_append, List.map_cons, List.map_nil]
  congr 1
  · apply List.map_congr_left
    intro i hi
    rw [List.mem_range] at hi
    rw [List.take_append_of_le_length (by omega)]
  · rw [List.take_of_length_le (by simp)]

/-- C2 (amended): over positive host timestamps, the delta window and the
rate window are exactly the last-60 windows of the delta sequence and of
the per-tick rate sequence (so both never exceed 60 entries, oldest
evicted first), and the displayed average polling rate is the rounded mean
of the rate window, where the rate pushed at tick i is 1000 divided by the
mean of the delta window at tick i — not 1000 divided by the mean of the
last 60 deltas. -/
theorem C2_amended (ts : List ℚ) (hpos : ∀ t ∈ ts, 0 < t) :
    (runPerf initPerf ts).frameDeltas = lastN 60 (deltasOf ts) ∧
    (runPerf initPerf ts).pollingRates = lastN 60 (ratesOf (deltasOf ts)) ∧
    (runPerf initPerf ts).frameDeltas.length ≤ 60 ∧
    (runPerf initPerf ts).pollingRates.length ≤ 60 ∧
    displayedRate (runPerf initPerf ts) =
      jsRound (jsMean (lastN 60 (ratesOf (deltasOf ts)))) := by
  have main : ∀ us : List ℚ, (∀ t ∈ us, 0 < t) →
      (runPerf initPerf us).frameDeltas = lastN 60 (deltasOf us) ∧
      (runPerf initPerf us).pollingRates = lastN 60 (ratesOf (deltasOf us)) := by
    intro us
    induction us using List.reverseRecOn with
    | nil => intro _; exact ⟨rfl, rfl⟩
    | append_singleton us t ih =>
      intro hp
      have hpus : ∀ u ∈ us, 0 < u := fun u hu => hp u (List.mem_append_left _ hu)
      obtain ⟨ihd, ihr⟩ := ih hpus
      rw [runPerf_append]
      cases hus : us with
      | nil =>
        subst hus
        refine ⟨?_, ?_⟩ <;>
          simp [perfStep, runPerf, initPerf, deltasOf, deltaChain, lastN, ratesOf]
      | cons u vs =>
        have hne : us ≠ [] := by rw [hus]; exact List.cons_ne_nil u vs
        rw [← hus]
        have hlastmem : us.getLastD 0 ∈ us := by
          rw [List.getLastD_eq_getLast?, List.getLast?_eq_getLast us hne]
          exact List.getLast_mem hne
        have hguard : (runPerf initPerf us).lastTimestamp > 0 := by
          rw [runPerf_lastTimestamp]
          exact hpus _ hlastmem
        have hδ : deltasOf (us ++ [t]) = deltasOf us ++ [t - us.getLastD 0] :=
          deltasOf_append us hne t
        constructor
        · rw [perfStep_pos_frameDeltas _ t hguard, hδ, lastN_append 60 (by norm_num),
            ihd, runPerf_lastTimestamp]
        · rw [perfStep_pos_pollingRates _ t hguard, hδ, ratesOf_append,
            lastN_append 60 (by norm_num), ihr, ihd, lastN_append 60 (by norm_num),
            runPerf_lastTimestamp]
  obtain ⟨hd, hr⟩ := main ts hpos
  refine ⟨hd, hr, ?_, ?_, ?_⟩
  · rw [hd]; exact lastN_length_le 60 _
  · rw [hr]; exact lastN_length_le 60 _
  · rw [displayedRate, hr]

/-- Witness for C2 (amended): the window and display characterization
evaluated at the concrete positive timestamps 1, 2, 4. -/
theorem C2_amended_witness :
    (runPerf initPerf [1, 2, 4]).frameDeltas = lastN 60 (deltasOf [1, 2, 4]) ∧
    (runPerf initPerf [1, 2, 4]).pollingRates = lastN 60 (ratesOf (deltasOf [1, 2, 4])) ∧
    (runPerf initPerf [1, 2, 4]).frameDeltas.length ≤ 60 ∧
    (runPerf initPerf [1, 2, 4]).pollingRates.length ≤ 60 ∧
    displayedRate (runPerf initPerf [1, 2, 4]) =
      jsRound (jsMean (lastN 60 (ratesOf (deltasOf [1, 2, 4])))) :=
  C2_amended [1, 2, 4] (by decide)
